import Mathlib

/-!
Shallow embedding of the js-pdf-extractor TypeScript library.

Conventions used throughout:
* JS strings are Lean `String`; JS string truthiness (`!s` / `if (s)`) is the
  test `s ≠ ""` and `undefined` fields are `Option`.
* Byte buffers are `List Nat` (one entry per byte).
* JS numbers that the code only selects between (temperatures) are `ℚ`;
  no arithmetic is performed on them, so this is faithful.
* Fallible TS code (`throw` / rejected promises) is `Except String` (or a
  dedicated error type); external capabilities (pdf-parse, the OpenAI client,
  the filesystem) are passed in as explicit oracle arguments, so theorems
  quantifying over every oracle express that the capability is never consulted.
-/

namespace PdfExtractor

/-! ## types.ts -/

/-- Image representation of a PDF page (`PdfPageImage` in types.ts):
1-indexed page number and the base64 payload. -/
structure PdfPageImage where
  page : Nat
  base64 : String
  deriving Repr, DecidableEq

/-- `ParsedPdfContent`: tagged union of extracted text or page images. -/
inductive ParsedPdfContent where
  | text (content : String)
  | images (content : List PdfPageImage)
  deriving Repr, DecidableEq

/-- `ParsedPdf`: content plus the document's page count (`numPages`).
The optional `info` metadata map is irrelevant to every claim and omitted. -/
structure ParsedPdf where
  content : ParsedPdfContent
  numPages : Nat
  deriving Repr, DecidableEq

/-- `ExtractorConfig` (types.ts, latest revision): all optional fields are
`Option`; `none` is an absent / `undefined` field. -/
structure ExtractorConfig where
  openaiApiKey : String
  baseUrl : Option String := none
  model : Option String := none
  textModel : Option String := none
  visionModel : Option String := none
  visionEnabled : Option Bool := none
  textThreshold : Option Nat := none
  systemPrompt : Option String := none
  defaultTemperature : Option ℚ := none
  deriving Repr, DecidableEq

/-- JS `a || b` on an optional string: the fallback fires when the field is
absent (`undefined`) or the empty string (falsy). -/
def jsOrStr (a : Option String) (b : String) : String :=
  match a with
  | some s => if s = "" then b else s
  | none => b

/-! ## pdf-parser.ts (revision with signature validation) -/

namespace PdfParser

/-- JS `String.prototype.trim`: drop whitespace from both ends of the
string (modelled on the character list so that it computes by structural
recursion). -/
def jsTrim (s : String) : String :=
  ⟨((s.data.dropWhile Char.isWhitespace).reverse.dropWhile Char.isWhitespace).reverse⟩

/-- Splitting a character list at commas, JS `split(',')` style: always at
least one (possibly empty) piece. -/
def splitCommaChars : List Char → List Char → List (List Char)
  | [], acc => [acc.reverse]
  | c :: rest, acc =>
    if c = ',' then acc.reverse :: splitCommaChars rest []
    else splitCommaChars rest (c :: acc)

/-- JS `s.split(',')`. -/
def jsSplitComma (s : String) : List String :=
  (splitCommaChars s.data []).map (fun cs => ⟨cs⟩)

/-- The 4 ASCII bytes of `%PDF`, as in `Buffer.from('%PDF')`. -/
def pdfSignature : List Nat := [37, 80, 68, 70]

/-- `isValidPdfSignature`: false for buffers shorter than 4 bytes, otherwise
compares the first 4 bytes against `%PDF`.  (The JS `!buffer` null-guard has
no counterpart: a `List Nat` is never null.) -/
def isValidPdfSignature (buffer : List Nat) : Bool :=
  if buffer.length < 4 then false
  else buffer.take 4 == pdfSignature

/-- `hasExtractableText`: `if (!text) return false;` then
`text.trim().length >= threshold`.  The JS default argument is 100. -/
def hasExtractableText (text : String) (threshold : Nat := 100) : Bool :=
  if text = "" then false
  else decide (threshold ≤ (jsTrim text).length)

/-- One entry of `result.pages` returned by pdf-parse's `getScreenshot`:
a page number and possibly a data URL (`dataUrl` is optional in pdf-parse). -/
structure ScreenshotPage where
  pageNumber : Nat
  dataUrl : Option String
  deriving Repr, DecidableEq

/-- `page.dataUrl?.split(',')[1] || ''`: take the part after the first comma
of the data URL, defaulting to the empty string when the URL is absent or has
no comma-separated payload. -/
def dataUrlBase64 (dataUrl : Option String) : String :=
  match dataUrl with
  | none => ""
  | some u =>
    match (jsSplitComma u).get? 1 with
    | some s => if s = "" then "" else s
    | none => ""

/-- Errors surfaced by `parsePdfFromBuffer`. -/
inductive ParseError where
  | invalidPdf
  | parseFailed (msg : String)
  deriving Repr, DecidableEq

/-- `convertPdfToImages` (pdf-parse v2 `getScreenshot` revision).  The
screenshot capability is an oracle: either it rejects with a message or it
yields the pages.  Every page yielded becomes one `PdfPageImage`; an empty
yield is turned into an error; all errors are wrapped with the
`Failed to convert PDF to images: ` prefix by the catch block. -/
def convertPdfToImages (screenshot : Except String (List ScreenshotPage)) :
    Except String (List PdfPageImage) :=
  match screenshot with
  | .error e => .error ("Failed to convert PDF to images: " ++ e)
  | .ok pages =>
    let images : List PdfPageImage :=
      pages.map (fun p => { page := p.pageNumber, base64 := dataUrlBase64 p.dataUrl })
    if images.length = 0 then
      .error ("Failed to convert PDF to images: " ++ "PDF conversion produced no images")
    else
      .ok images

/-- `parsePdfFromBuffer`: signature gate, then text extraction, then the
classification, then (only when text is insufficient) image conversion.
`getText` and `getInfoTotal` are the pdf-parse oracles (`getText().text`
and `getInfo().total`); `textThreshold` is the caller's option
(`options?.textThreshold ?? 100`). -/
def parsePdfFromBuffer (buffer : List Nat) (textThreshold : Option Nat)
    (getText : Except String String) (getInfoTotal : Except String Nat)
    (screenshot : Except String (List ScreenshotPage)) :
    Except ParseError ParsedPdf :=
  if isValidPdfSignature buffer = false then
    .error .invalidPdf
  else
    let threshold := textThreshold.getD 100
    match getText with
    | .error e => .error (.parseFailed ("Failed to parse PDF: " ++ e))
    | .ok text =>
      match getInfoTotal with
      | .error e => .error (.parseFailed ("Failed to parse PDF: " ++ e))
      | .ok total =>
        if hasExtractableText text threshold then
          .ok { content := .text text, numPages := total }
        else
          match convertPdfToImages screenshot with
          | .error e => .error (.parseFailed ("Failed to parse PDF: " ++ e))
          | .ok images => .ok { content := .images images, numPages := total }

end PdfParser

/-! ## schema-validator.ts : `formatSchemaForOpenAI`

A minimal JSON value model: enough to express `Record<string, any>` values,
JS truthiness and strict string equality, which is all the function uses. -/

/-- JSON values as manipulated by schema-validator.ts. -/
inductive Json where
  | null
  | bool (b : Bool)
  | num (q : ℚ)
  | str (s : String)
  | arr (xs : List Json)
  | obj (fields : List (String × Json))
  deriving Repr

/-- Property access `o.k` on an object's field list: the first binding wins,
`none` is JS `undefined`. -/
def getField (fields : List (String × Json)) (k : String) : Option Json :=
  match fields with
  | [] => none
  | (k', v) :: rest => if k' = k then some v else getField rest k

/-- JS truthiness of a JSON value (objects and arrays are always truthy). -/
def truthy : Json → Bool
  | .null => false
  | .bool b => b
  | .num q => q ≠ 0
  | .str s => s ≠ ""
  | .arr _ => true
  | .obj _ => true

/-- Truthiness of a property access, where `undefined` is falsy. -/
def truthyOpt : Option Json → Bool
  | none => false
  | some v => truthy v

/-- JS strict equality `v === 'object'` of a property access against the
string literal: true exactly when the value is that string. -/
def isStrObject : Option Json → Bool
  | some (.str s) => s = "object"
  | _ => false

/-- `formatSchemaForOpenAI`: returns the schema unchanged when
`schema.type === 'object' && schema.properties` holds, otherwise wraps it as
`{type:'object', properties:schema, required:Object.keys(schema),
additionalProperties:false}`. -/
def formatSchemaForOpenAI (schema : List (String × Json)) : List (String × Json) :=
  if isStrObject (getField schema "type") && truthyOpt (getField schema "properties") then
    schema
  else
    [("type", .str "object"),
     ("properties", .obj schema),
     ("required", .arr (schema.map (fun kv => .str kv.1))),
     ("additionalProperties", .bool false)]

/-! ## extractor.ts, first revision (the one with `isVisionCapableModel`) -/

namespace Extractor1

/-- Pattern containment `s.includes(pat)` on character lists. -/
def charsLead : List Char → List Char → Bool
  | [], _ => true
  | _ :: _, [] => false
  | a :: as, b :: bs => a == b && charsLead as bs

/-- `s.includes(pat)` : some suffix of `s` starts with `pat`. -/
def charsHaveSub (pat : List Char) : List Char → Bool
  | [] => pat.isEmpty
  | c :: rest => charsLead pat (c :: rest) || charsHaveSub pat rest

/-- JS `s.includes(pat)` on strings. -/
def strIncludes (s pat : String) : Bool :=
  charsHaveSub pat.data s.data

/-- JS `s.toLowerCase()` (ASCII case folding suffices for the model names
involved). -/
def jsToLower (s : String) : String :=
  ⟨s.data.map Char.toLower⟩

/-- The hard-coded vision-capable model list of `isVisionCapableModel`. -/
def visionModels : List String :=
  ["gpt-4o", "gpt-4o-mini", "gpt-4-turbo", "gpt-4-vision-preview",
   "claude-3-5-sonnet", "claude-3-opus", "gemini-1.5-pro"]

/-- `isVisionCapableModel`: the lowercased model name contains some entry of
the list (each entry also lowercased). -/
def isVisionCapableModel (model : String) : Bool :=
  visionModels.any (fun vm => strIncludes (jsToLower model) (jsToLower vm))

/-- One part of a vision-mode user message: either the leading instruction
text or an `image_url` attachment. -/
inductive ContentPart where
  | text (t : String)
  | imageUrl (url : String)
  deriving Repr, DecidableEq

/-- The `for (const img of images) content.push(...)` loop of
`extractFromImages`, accumulator-style. -/
def pushImageParts (images : List PdfPageImage) (acc : List ContentPart) :
    List ContentPart :=
  match images with
  | [] => acc
  | img :: rest =>
    pushImageParts rest
      (acc ++ [.imageUrl ("data:image/png;base64," ++ img.base64)])

/-- The full vision-mode user-message content: the fixed instruction followed
by the pushed image attachments. -/
def buildVisionContent (images : List PdfPageImage) : List ContentPart :=
  pushImageParts images
    [.text "Extract the following structured information from these document pages:"]

/-- Just the attachment URLs of a content list, in order. -/
def attachmentUrls : List ContentPart → List String
  | [] => []
  | .text _ :: rest => attachmentUrls rest
  | .imageUrl u :: rest => u :: attachmentUrls rest

/-- What the OpenAI-call oracle returns in this model: the parsed result
fields the extractor builds its `ExtractionResult` from. -/
structure CompletionOutcome where
  content : Option String
  totalTokens : Option Nat
  model : String
  deriving Repr, DecidableEq

/-- `extractFromImages` of the first extractor.ts revision, up to and
including the decision to call the model: vision-enabled gate, then the
vision-capability gate, then one call to the completions oracle.  The oracle
receives the message content that would be transmitted, so quantifying over
oracles states that no call is made when a gate fires. -/
def extractFromImages (visionEnabled : Option Bool) (model : String)
    (images : List PdfPageImage)
    (callModel : List ContentPart → Except String CompletionOutcome) :
    Except String CompletionOutcome :=
  if visionEnabled == some false then
    .error "PDF contains no extractable text and vision mode is disabled"
  else if !isVisionCapableModel model then
    .error ("Model '" ++ model ++
      "' does not support vision. Please use a vision-capable model like gpt-4o or gpt-4o-mini for scanned PDFs.")
  else
    callModel (buildVisionContent images)

end Extractor1

/-! ## extractor.ts, latest revision (per-modality models and system prompt;
`src/unnamed/part_003`) -/

namespace Extractor3

/-- The default system prompt hard-coded in the constructor. -/
def defaultSystemPrompt : String :=
  "You are a helpful assistant that extracts structured data from text. Extract the requested information accurately from the provided text."

/-- The resolved, immutable state the constructor builds (`this.model`,
`this.textModel`, `this.visionModel`, `this.systemPrompt`, plus the spread
config the methods later read). -/
structure ExtractorState where
  model : String
  textModel : String
  visionModel : String
  systemPrompt : String
  visionEnabled : Option Bool
  textThreshold : Option Nat
  deriving Repr, DecidableEq

/-- The `PdfDataExtractor` constructor: API-key gate, system-prompt
resolution (`config.systemPrompt !== undefined ? config.systemPrompt :
default`), default model (`config.model || 'gpt-4o-mini'`) and the
per-modality fallbacks (`config.textModel || defaultModel`,
`config.visionModel || defaultModel`).  The spread
`{visionEnabled: true, textThreshold: 100, ...config}` keeps the config's own
value whenever the field is present. -/
def mkPdfDataExtractor (config : ExtractorConfig) : Except String ExtractorState :=
  if config.openaiApiKey = "" then
    .error "OpenAI API key is required"
  else
    let systemPrompt :=
      match config.systemPrompt with
      | some s => s
      | none => defaultSystemPrompt
    let defaultModel := jsOrStr config.model "gpt-4o-mini"
    .ok
      { model := defaultModel
        textModel := jsOrStr config.textModel defaultModel
        visionModel := jsOrStr config.visionModel defaultModel
        systemPrompt := systemPrompt
        visionEnabled := some (config.visionEnabled.getD true)
        textThreshold := some (config.textThreshold.getD 100) }

/-- `getTextModel()`. -/
def getTextModel (st : ExtractorState) : String := st.textModel

/-- `getVisionModel()`. -/
def getVisionModel (st : ExtractorState) : String := st.visionModel

/-- A chat message: system, plain-text user, or vision user message whose
content is a part list. -/
inductive ChatMessage where
  | system (content : String)
  | user (content : String)
  | userParts (content : List Extractor1.ContentPart)
  deriving Repr, DecidableEq

/-- Message list built by `extractFromText`: the system message is pushed
only when `this.systemPrompt` is truthy (non-empty), then the single user
message wrapping the PDF text. -/
def buildTextMessages (systemPrompt : String) (text : String) : List ChatMessage :=
  (if systemPrompt = "" then [] else [.system systemPrompt]) ++
    [.user ("Extract the following information from this text:\n\n" ++ text)]

/-- Message list built by `extractFromImages`: same system-message rule,
then the vision user message with instruction and attachments. -/
def buildImageMessages (systemPrompt : String) (images : List PdfPageImage) :
    List ChatMessage :=
  (if systemPrompt = "" then [] else [.system systemPrompt]) ++
    [.userParts (Extractor1.buildVisionContent images)]

/-- The system-message contents of a message list, in order. -/
def systemContents : List ChatMessage → List String
  | [] => []
  | .system c :: rest => c :: systemContents rest
  | .user _ :: rest => systemContents rest
  | .userParts _ :: rest => systemContents rest

/-- `ExtractionOptions` (types.ts): schema, the two possible sources, and the
per-call temperature / max-token options. -/
structure ExtractionOptions where
  schemaGiven : Json
  pdfPath : Option String := none
  pdfBuffer : Option (List Nat) := none
  temperature : Option ℚ := none
  maxTokens : Option Nat := none

/-- Temperature transmitted by `extractFromText`:
`options.temperature ?? 0`. -/
def sentTemperatureText (options : ExtractionOptions) : ℚ :=
  options.temperature.getD 0

/-- Temperature transmitted by `extractFromImages`:
`options.temperature || 0` (JS `||`, so 0 is replaced by the fallback 0). -/
def sentTemperatureVision (options : ExtractionOptions) : ℚ :=
  match options.temperature with
  | some t => if t = 0 then 0 else t
  | none => 0

/-- Modelled from the spec (§4.3): the temperature the ModelSelector is
claimed to resolve — the per-call `temperature` option if provided, else the
configuration's `defaultTemperature`, whose own default is 0.  This is the
comparison point for the configured-default-temperature claim; no extractor
revision in the repository reads `config.defaultTemperature`. -/
def specResolvedTemperature (config : ExtractorConfig)
    (options : ExtractionOptions) : ℚ :=
  options.temperature.getD (config.defaultTemperature.getD 0)

/-- Errors surfaced by `extract`. -/
inductive ExtractError where
  | missingSource
  | invalidSchema (msg : String)
  | pdfError (msg : String)
  | extractionFailed (msg : String)
  deriving Repr, DecidableEq

/-- JS truthiness of `options.pdfPath` (a string field). -/
def truthyPath : Option String → Bool
  | some s => s ≠ ""
  | none => false

/-- JS truthiness of `options.pdfBuffer` (a Buffer object is always truthy
when present). -/
def truthyBuffer : Option (List Nat) → Bool
  | some _ => true
  | none => false

/-- `extract` of the latest extractor revision, with every external step an
oracle: `validateSchemaR` is the schema gate's verdict, `parseFromPath` and
`parseFromBuffer` stand for the two parser entry points (the path form hides
the filesystem read inside `parsePdfFromPath`), and `runText` / `runImages`
stand for the two OpenAI-calling private methods.  Mirrors the source order:
source check, schema gate, parse, then the content-type branch whose
failures are wrapped as `Failed to extract data: `. -/
def extract (options : ExtractionOptions)
    (validateSchemaR : Except String Unit)
    (parseFromPath : String → Except String ParsedPdf)
    (parseFromBuffer : List Nat → Except String ParsedPdf)
    (runText : String → Except String Extractor1.CompletionOutcome)
    (runImages : List PdfPageImage → Except String Extractor1.CompletionOutcome) :
    Except ExtractError Extractor1.CompletionOutcome :=
  if !truthyPath options.pdfPath && !truthyBuffer options.pdfBuffer then
    .error .missingSource
  else
    match validateSchemaR with
    | .error e => .error (.invalidSchema ("Invalid JSON schema: " ++ e))
    | .ok _ =>
      let parsed :=
        if truthyPath options.pdfPath then
          parseFromPath (options.pdfPath.getD "")
        else
          parseFromBuffer (options.pdfBuffer.getD [])
      match parsed with
      | .error e => .error (.pdfError e)
      | .ok pdf =>
        match pdf.content with
        | .text body =>
          match runText body with
          | .error e => .error (.extractionFailed ("Failed to extract data: " ++ e))
          | .ok outcome => .ok outcome
        | .images imgs =>
          match runImages imgs with
          | .error e => .error (.extractionFailed ("Failed to extract data: " ++ e))
          | .ok outcome => .ok outcome

end Extractor3

/-! # Theorems -/

/-! ## Shared helper lemmas -/

/-- Inversion of the constructor: a successful construction yields exactly the
resolved field values. -/
theorem mk_ok_elim (cfg : ExtractorConfig) (st : Extractor3.ExtractorState)
    (h : Extractor3.mkPdfDataExtractor cfg = .ok st) :
    st = { model := jsOrStr cfg.model "gpt-4o-mini"
           textModel := jsOrStr cfg.textModel (jsOrStr cfg.model "gpt-4o-mini")
           visionModel := jsOrStr cfg.visionModel (jsOrStr cfg.model "gpt-4o-mini")
           systemPrompt := cfg.systemPrompt.getD Extractor3.defaultSystemPrompt
           visionEnabled := some (cfg.visionEnabled.getD true)
           textThreshold := some (cfg.textThreshold.getD 100) } := by
  unfold Extractor3.mkPdfDataExtractor at h
  split at h
  · cases h
  · cases h
    cases hs : cfg.systemPrompt <;> simp [hs, Option.getD]

/-- The image-pushing loop appends one `image_url` part per image, in order. -/
theorem pushImageParts_spec (images : List PdfPageImage)
    (acc : List Extractor1.ContentPart) :
    Extractor1.pushImageParts images acc =
      acc ++ images.map
        (fun img => .imageUrl ("data:image/png;base64," ++ img.base64)) := by
  induction images generalizing acc with
  | nil => simp [Extractor1.pushImageParts]
  | cons img rest ih => simp [Extractor1.pushImageParts, ih]

/-- `attachmentUrls` strips the markers off a mapped attachment list. -/
theorem attachmentUrls_map (f : PdfPageImage → String) (images : List PdfPageImage) :
    Extractor1.attachmentUrls (images.map (fun img => .imageUrl (f img))) =
      images.map f := by
  induction images with
  | nil => rfl
  | cons img rest ih => simp [Extractor1.attachmentUrls, ih]

/-! ## C1 — text-sufficiency classification -/

/-- C1 (counterexample): the claim says an all-whitespace string is always
classified insufficient (IMAGE) regardless of threshold, including
threshold 0 — but the code classifies the one-space string as sufficient
(TEXT) at threshold 0, because the `!text` guard only catches the empty
string and the trimmed length 0 satisfies `0 ≤ 0`. -/
theorem whitespace_text_zero_threshold_text :
    PdfParser.hasExtractableText " " 0 = true := by
  decide

/-- C1 (amended): `hasExtractableText t k` is TEXT exactly when `t` is
non-empty and `trim(t).length ≥ k`; the threshold defaults to 100 when
unset; the empty string is insufficient for every threshold. -/
theorem hasExtractableText_characterization (t : String) (k : Nat) :
    (PdfParser.hasExtractableText t k = true ↔
      (t ≠ "" ∧ k ≤ (PdfParser.jsTrim t).length)) ∧
    PdfParser.hasExtractableText t = PdfParser.hasExtractableText t 100 ∧
    PdfParser.hasExtractableText "" k = false := by
  refine ⟨?_, rfl, by simp [PdfParser.hasExtractableText]⟩
  unfold PdfParser.hasExtractableText
  by_cases h : t = "" <;> simp [h]

/-! ## C2 — signature gate -/

/-- C2: any buffer whose first 4 bytes are not `%PDF` (including all buffers
shorter than 4 bytes) fails `isValidPdfSignature`, and `parsePdfFromBuffer`
fails with the invalid-PDF error for every behaviour of the text-extraction,
info and screenshot capabilities — so no heavier parsing is consulted. -/
theorem invalid_signature_rejected (buffer : List Nat)
    (h : buffer.take 4 ≠ PdfParser.pdfSignature) :
    PdfParser.isValidPdfSignature buffer = false ∧
    ∀ (thr : Option Nat) (getText : Except String String)
      (getInfoTotal : Except String Nat)
      (screenshot : Except String (List PdfParser.ScreenshotPage)),
      PdfParser.parsePdfFromBuffer buffer thr getText getInfoTotal screenshot =
        .error .invalidPdf := by
  have hsig : PdfParser.isValidPdfSignature buffer = false := by
    unfold PdfParser.isValidPdfSignature
    split
    · rfl
    · simpa using h
  refine ⟨hsig, fun thr getText getInfoTotal screenshot => ?_⟩
  unfold PdfParser.parsePdfFromBuffer
  simp [hsig]

/-- C2 (witness): a concrete 3-byte buffer is rejected by the signature
check and by the parser, with arbitrarily chosen failing capabilities. -/
theorem invalid_signature_rejected_witness :
    ([37, 80, 68] : List Nat).take 4 ≠ PdfParser.pdfSignature ∧
    PdfParser.parsePdfFromBuffer [37, 80, 68] none (.error "x") (.error "y")
      (.error "z") = .error .invalidPdf :=
  ⟨by decide,
   (invalid_signature_rejected [37, 80, 68] (by decide)).2 none (.error "x")
     (.error "y") (.error "z")⟩

/-! ## C3 — effective model resolution -/

/-- C3 (counterexample): the claim says the effective text model equals
`textModel` whenever it is set — but the constructor uses JS `||`, so a
`textModel` explicitly set to the empty string falls back to the default
model instead of being used. -/
theorem empty_textModel_falls_back :
    Extractor3.mkPdfDataExtractor
        { openaiApiKey := "k", model := some "gpt-4", textModel := some "" } =
      .ok { model := "gpt-4", textModel := "gpt-4", visionModel := "gpt-4"
            systemPrompt := Extractor3.defaultSystemPrompt
            visionEnabled := some true, textThreshold := some 100 } ∧
    ({ openaiApiKey := "k", model := some "gpt-4", textModel := some "" }
        : ExtractorConfig).textModel = some "" ∧
    ("gpt-4" : String) ≠ "" := by
  refine ⟨?_, rfl, by decide⟩
  unfold Extractor3.mkPdfDataExtractor
  simp [jsOrStr]

/-- C3 (amended): the effective text model is `textModel` when set to a
non-empty string, else the default model (`model` when set non-empty, else
"gpt-4o-mini"); likewise for vision; the two resolve independently, and with
only the default model configured both equal it. -/
theorem model_resolution (cfg : ExtractorConfig) (st : Extractor3.ExtractorState)
    (h : Extractor3.mkPdfDataExtractor cfg = .ok st) :
    (∀ s, cfg.textModel = some s → s ≠ "" → Extractor3.getTextModel st = s) ∧
    (∀ s, cfg.visionModel = some s → s ≠ "" → Extractor3.getVisionModel st = s) ∧
    ((cfg.textModel = none ∨ cfg.textModel = some "") →
      Extractor3.getTextModel st = jsOrStr cfg.model "gpt-4o-mini") ∧
    ((cfg.visionModel = none ∨ cfg.visionModel = some "") →
      Extractor3.getVisionModel st = jsOrStr cfg.model "gpt-4o-mini") ∧
    (∀ v st2,
      Extractor3.mkPdfDataExtractor { cfg with visionModel := v } = .ok st2 →
      Extractor3.getTextModel st2 = Extractor3.getTextModel st) ∧
    (∀ t st2,
      Extractor3.mkPdfDataExtractor { cfg with textModel := t } = .ok st2 →
      Extractor3.getVisionModel st2 = Extractor3.getVisionModel st) := by
  have hst := mk_ok_elim cfg st h
  subst hst
  refine ⟨?_, ?_, ?_, ?_, ?_, ?_⟩
  · intro s hs hne
    simp [Extractor3.getTextModel, hs, jsOrStr, hne]
  · intro s hs hne
    simp [Extractor3.getVisionModel, hs, jsOrStr, hne]
  · rintro (hs | hs) <;> simp [Extractor3.getTextModel, hs, jsOrStr]
  · rintro (hs | hs) <;> simp [Extractor3.getVisionModel, hs, jsOrStr]
  · intro v st2 h2
    have := mk_ok_elim _ st2 h2
    subst this
    simp [Extractor3.getTextModel]
  · intro t st2 h2
    have := mk_ok_elim _ st2 h2
    subst this
    simp [Extractor3.getVisionModel]

/-- C3 (witness): with only the default model "gpt-4" configured, the
effective text model resolves to it. -/
theorem model_resolution_witness :
    Extractor3.getTextModel
        { model := "gpt-4", textModel := "gpt-4", visionModel := "gpt-4"
          systemPrompt := Extractor3.defaultSystemPrompt
          visionEnabled := some true, textThreshold := some 100 } = "gpt-4" :=
  (model_resolution { openaiApiKey := "k", model := some "gpt-4" } _
      (by unfold Extractor3.mkPdfDataExtractor; simp [jsOrStr])).2.2.1
    (Or.inl rfl)

/-! ## C4 — default temperature -/

/-- C4 (code bug): `ExtractorConfig` declares and documents a
`defaultTemperature` field ("default temperature for all extractions,
default 0"), and the example and tests construct extractors with it — but
no extraction path ever reads it: `extractFromText` transmits
`options.temperature ?? 0` and `extractFromImages` transmits
`options.temperature || 0`.  At a configuration with
`defaultTemperature = 1/2` and no per-call temperature, the code transmits
0 while the documented behaviour resolves 1/2. -/
theorem default_temperature_ignored :
    Extractor3.sentTemperatureText { schemaGiven := .obj [] } = 0 ∧
    Extractor3.sentTemperatureVision { schemaGiven := .obj [] } = 0 ∧
    Extractor3.specResolvedTemperature
        { openaiApiKey := "k", defaultTemperature := some (1/2) }
        { schemaGiven := .obj [] } = 1/2 ∧
    (0 : ℚ) ≠ 1/2 := by
  refine ⟨rfl, rfl, rfl, by norm_num⟩

/-! ## C5 — system prompt resolution -/

/-- C5: the configured system prompt is used verbatim as the system message
of both extraction paths; an explicitly empty prompt suppresses the system
message entirely; an unset prompt uses the fixed default instructional
string — and the two behaviours are distinct since the default is
non-empty. -/
theorem system_prompt_resolution (cfg : ExtractorConfig)
    (st : Extractor3.ExtractorState)
    (h : Extractor3.mkPdfDataExtractor cfg = .ok st)
    (text : String) (images : List PdfPageImage) :
    (∀ s, cfg.systemPrompt = some s → s ≠ "" →
      Extractor3.systemContents (Extractor3.buildTextMessages st.systemPrompt text) = [s] ∧
      Extractor3.systemContents (Extractor3.buildImageMessages st.systemPrompt images) = [s]) ∧
    (cfg.systemPrompt = some "" →
      Extractor3.systemContents (Extractor3.buildTextMessages st.systemPrompt text) = [] ∧
      Extractor3.systemContents (Extractor3.buildImageMessages st.systemPrompt images) = []) ∧
    (cfg.systemPrompt = none →
      Extractor3.systemContents (Extractor3.buildTextMessages st.systemPrompt text) =
        [Extractor3.defaultSystemPrompt] ∧
      Extractor3.systemContents (Extractor3.buildImageMessages st.systemPrompt images) =
        [Extractor3.defaultSystemPrompt]) ∧
    Extractor3.defaultSystemPrompt ≠ "" := by
  have hst := mk_ok_elim cfg st h
  subst hst
  refine ⟨?_, ?_, ?_, by decide⟩
  · intro s hs hne
    constructor <;>
      simp [hs, Extractor3.buildTextMessages, Extractor3.buildImageMessages,
        Extractor3.systemContents, hne]
  · intro hs
    constructor <;>
      simp [hs, Extractor3.buildTextMessages, Extractor3.buildImageMessages,
        Extractor3.systemContents]
  · intro hs
    constructor <;>
      simp [hs, Extractor3.buildTextMessages, Extractor3.buildImageMessages,
        Extractor3.systemContents, Extractor3.defaultSystemPrompt]

/-- C5 (witness): a concrete non-empty custom prompt is emitted verbatim as
the single system message of the text path. -/
theorem system_prompt_resolution_witness :
    Extractor3.systemContents
        (Extractor3.buildTextMessages
          (Extractor3.ExtractorState.systemPrompt
            { model := "gpt-4o-mini", textModel := "gpt-4o-mini"
              visionModel := "gpt-4o-mini", systemPrompt := "Custom extraction prompt"
              visionEnabled := some true, textThreshold := some 100 }) "body") =
      ["Custom extraction prompt"] :=
  ((system_prompt_resolution
      { openaiApiKey := "k", systemPrompt := some "Custom extraction prompt" } _
      (by unfold Extractor3.mkPdfDataExtractor; simp [jsOrStr]) "body" []).1
    "Custom extraction prompt" rfl (by decide)).1

/-! ## C6 — partial rasterization failure -/

/-- C6 (counterexample): a scan-like 3-page PDF where the screenshot
capability yields data for pages 1 and 3 but none for page 2.  The claim
says parse returns the Images variant with exactly pages [1, 3]; the code
instead keeps a page-2 entry with an empty base64 payload, so the page list
is [1, 2, 3], not [1, 3]. -/
theorem partial_rasterization_not_omitted :
    PdfParser.parsePdfFromBuffer [37, 80, 68, 70] none (.ok "") (.ok 3)
        (.ok [⟨1, some "data:image/png;base64,AAA"⟩, ⟨2, none⟩,
              ⟨3, some "data:image/png;base64,CCC"⟩]) =
      .ok { content := .images [⟨1, "AAA"⟩, ⟨2, ""⟩, ⟨3, "CCC"⟩], numPages := 3 } ∧
    ([⟨1, "AAA"⟩, ⟨2, ""⟩, ⟨3, "CCC"⟩] : List PdfPageImage).map PdfPageImage.page ≠
      [1, 3] := by
  constructor
  · rfl
  · decide

/-- C6 (amended): when text is insufficient and the screenshot capability
succeeds with a non-empty page list, parse returns the Images variant with
one entry per yielded page in page order and raises no error — but a page
whose rasterization produced no data URL is kept with an empty base64
payload rather than being omitted; there is no mechanism that drops failed
pages, and a failure of the capability itself fails the whole parse. -/
theorem rasterization_pages_kept (buffer : List Nat) (thr : Option Nat)
    (text : String) (total : Nat) (pages : List PdfParser.ScreenshotPage)
    (hsig : PdfParser.isValidPdfSignature buffer = true)
    (hins : PdfParser.hasExtractableText text (thr.getD 100) = false)
    (hne : pages ≠ []) :
    PdfParser.parsePdfFromBuffer buffer thr (.ok text) (.ok total) (.ok pages) =
      .ok { content := .images (pages.map
              (fun p => ⟨p.pageNumber, PdfParser.dataUrlBase64 p.dataUrl⟩))
            numPages := total } := by
  unfold PdfParser.parsePdfFromBuffer
  rw [hsig]
  simp only [Bool.true_eq_false, if_false, hins, Bool.false_eq_true]
  unfold PdfParser.convertPdfToImages
  simp [hne]

/-- C6 (witness): the amended behaviour at the concrete 3-page input with a
missing page-2 data URL. -/
theorem rasterization_pages_kept_witness :
    PdfParser.parsePdfFromBuffer [37, 80, 68, 70] (some 10) (.ok "hi") (.ok 3)
        (.ok [⟨1, some "data:image/png;base64,AAA"⟩, ⟨2, none⟩]) =
      .ok { content := .images [⟨1, "AAA"⟩, ⟨2, ""⟩], numPages := 3 } :=
  rasterization_pages_kept [37, 80, 68, 70] (some 10) "hi" 3
    [⟨1, some "data:image/png;base64,AAA"⟩, ⟨2, none⟩]
    (by decide) (by decide) (by decide)

/-! ## C7 — source precondition of extract -/

/-- C7 (counterexample): the claim requires exactly one of
`pdfPath`/`pdfBuffer`; the code only rejects the neither case.  Supplying
both does not fail with the missing-source error: the call proceeds to the
schema gate (here a failing one, whose message comes back wrapped). -/
theorem both_sources_accepted :
    Extractor3.extract
        { schemaGiven := .obj [], pdfPath := some "a.pdf", pdfBuffer := some [37] }
        (.error "Schema cannot be empty")
        (fun _ => .error "r") (fun _ => .error "r")
        (fun _ => .error "m") (fun _ => .error "m") =
      .error (.invalidSchema "Invalid JSON schema: Schema cannot be empty") ∧
    (Except.error (Extractor3.ExtractError.invalidSchema
        "Invalid JSON schema: Schema cannot be empty") :
      Except Extractor3.ExtractError Extractor1.CompletionOutcome) ≠
      .error .missingSource := by
  constructor
  · rfl
  · intro h
    cases h

/-- C7 (amended): at least one source must be supplied.  When neither field
is truthy, `extract` fails with the missing-source error for every schema
gate, parser and model oracle — so the schema gate is never consulted and no
file read is attempted.  When `pdfPath` is truthy, the call passes the
source gate (never failing with missing-source) and the buffer parser is
irrelevant, i.e. `pdfPath` takes precedence. -/
theorem source_gate (options : Extractor3.ExtractionOptions) :
    (Extractor3.truthyPath options.pdfPath = false →
     Extractor3.truthyBuffer options.pdfBuffer = false →
     ∀ vs pp pb rt ri,
       Extractor3.extract options vs pp pb rt ri = .error .missingSource) ∧
    (Extractor3.truthyPath options.pdfPath = true →
     ∀ vs pp pb pb2 rt ri,
       Extractor3.extract options vs pp pb rt ri =
         Extractor3.extract options vs pp pb2 rt ri ∧
       Extractor3.extract options vs pp pb rt ri ≠ .error .missingSource) := by
  constructor
  · intro h1 h2 vs pp pb rt ri
    unfold Extractor3.extract
    simp [h1, h2]
  · intro h1 vs pp pb pb2 rt ri
    unfold Extractor3.extract
    simp only [h1, Bool.not_true, Bool.false_and, Bool.false_eq_true, if_false,
      if_true]
    constructor
    · trivial
    · cases vs with
      | error e => simp
      | ok u =>
        simp only
        cases pp (options.pdfPath.getD "") with
        | error e => simp
        | ok pdf =>
          obtain ⟨c, n⟩ := pdf
          cases c with
          | text body =>
            cases hrt : rt body <;> simp [hrt]
          | images imgs =>
            cases hri : ri imgs <;> simp [hri]

/-- C7 (witness): a call with neither source fails with the missing-source
error even though the schema gate and all parsers would have succeeded. -/
theorem source_gate_witness :
    Extractor3.extract { schemaGiven := .obj [("a", .null)] } (.ok ())
        (fun _ => .ok { content := .text "t", numPages := 1 })
        (fun _ => .ok { content := .text "t", numPages := 1 })
        (fun _ => .ok ⟨some "r", none, "m"⟩) (fun _ => .ok ⟨some "r", none, "m"⟩) =
      .error .missingSource :=
  (source_gate { schemaGiven := .obj [("a", .null)] }).1 rfl rfl (.ok ())
    (fun _ => .ok { content := .text "t", numPages := 1 })
    (fun _ => .ok { content := .text "t", numPages := 1 })
    (fun _ => .ok ⟨some "r", none, "m"⟩) (fun _ => .ok ⟨some "r", none, "m"⟩)

/-! ## C8 — vision attachments -/

/-- C8: the vision-mode user content is the fixed instruction followed by
exactly one image attachment per rasterized page, in page order, each
transmitted as a data URL with the literal prefix
`data:image/png;base64,` followed by the page's encoded payload. -/
theorem vision_attachments_in_order (images : List PdfPageImage) :
    Extractor1.attachmentUrls (Extractor1.buildVisionContent images) =
      images.map (fun img => "data:image/png;base64," ++ img.base64) ∧
    (Extractor1.attachmentUrls (Extractor1.buildVisionContent images)).length =
      images.length ∧
    Extractor1.buildVisionContent images =
      .text "Extract the following structured information from these document pages:" ::
        images.map (fun img => .imageUrl ("data:image/png;base64," ++ img.base64)) := by
  have hbuild : Extractor1.buildVisionContent images =
      .text "Extract the following structured information from these document pages:" ::
        images.map (fun img => .imageUrl ("data:image/png;base64," ++ img.base64)) := by
    unfold Extractor1.buildVisionContent
    rw [pushImageParts_spec]
    rfl
  refine ⟨?_, ?_, hbuild⟩
  · rw [hbuild]
    show Extractor1.attachmentUrls (Extractor1.ContentPart.text _ ::
      images.map (fun img => .imageUrl ("data:image/png;base64," ++ img.base64))) = _
    unfold Extractor1.attachmentUrls
    exact attachmentUrls_map _ images
  · rw [hbuild]
    show (Extractor1.attachmentUrls (Extractor1.ContentPart.text _ ::
      images.map (fun img => .imageUrl ("data:image/png;base64," ++ img.base64)))).length = _
    unfold Extractor1.attachmentUrls
    rw [attachmentUrls_map]
    exact images.length_map _

/-! ## C9 — formatSchemaForOpenAI -/

/-- C9 (counterexample): the claim says a schema with type 'object' and a
properties field is returned unchanged — but the check is on JS truthiness,
so a schema whose properties field is present with value `null` is wrapped,
not returned unchanged. -/
theorem format_schema_null_properties :
    formatSchemaForOpenAI [("type", .str "object"), ("properties", .null)] ≠
      [("type", .str "object"), ("properties", .null)] ∧
    getField [("type", .str "object"), ("properties", .null)] "properties" =
      some .null := by
  refine ⟨?_, rfl⟩
  intro h
  have hlen := congrArg List.length h
  simp [formatSchemaForOpenAI, getField, isStrObject, truthyOpt, truthy] at hlen

/-- C9 (amended): `formatSchemaForOpenAI` returns its argument unchanged
when the schema has a `type` field strictly equal to 'object' and a truthy
`properties` value, and otherwise wraps it as `{type:'object',
properties:schema, required:<top-level keys of schema>,
additionalProperties:false}`; consequently it is idempotent. -/
theorem format_schema_spec (schema : List (String × Json)) :
    (isStrObject (getField schema "type") = true →
     truthyOpt (getField schema "properties") = true →
     formatSchemaForOpenAI schema = schema) ∧
    (isStrObject (getField schema "type") = false ∨
     truthyOpt (getField schema "properties") = false →
     formatSchemaForOpenAI schema =
       [("type", .str "object"), ("properties", .obj schema),
        ("required", .arr (schema.map (fun kv => .str kv.1))),
        ("additionalProperties", .bool false)]) ∧
    formatSchemaForOpenAI (formatSchemaForOpenAI schema) =
      formatSchemaForOpenAI schema := by
  refine ⟨?_, ?_, ?_⟩
  · intro h1 h2
    simp [formatSchemaForOpenAI, h1, h2]
  · intro h
    rcases h with h | h <;> simp [formatSchemaForOpenAI, h]
  · by_cases h1 : isStrObject (getField schema "type") = true
    · by_cases h2 : truthyOpt (getField schema "properties") = true
      · simp [formatSchemaForOpenAI, h1, h2]
      · rw [show formatSchemaForOpenAI schema =
            [("type", .str "object"), ("properties", .obj schema),
             ("required", .arr (schema.map (fun kv => .str kv.1))),
             ("additionalProperties", .bool false)] by
            simp [formatSchemaForOpenAI, h1, eq_false_of_ne_true h2]]
        simp [formatSchemaForOpenAI, getField, isStrObject, truthyOpt, truthy]
    · rw [show formatSchemaForOpenAI schema =
          [("type", .str "object"), ("properties", .obj schema),
           ("required", .arr (schema.map (fun kv => .str kv.1))),
           ("additionalProperties", .bool false)] by
          simp [formatSchemaForOpenAI, eq_false_of_ne_true h1]]
      simp [formatSchemaForOpenAI, getField, isStrObject, truthyOpt, truthy]

/-- C9 (witness): a simple-format schema (no top-level type) is wrapped,
with its keys collected as the required list. -/
theorem format_schema_spec_witness :
    formatSchemaForOpenAI [("name", Json.str "x")] =
      [("type", .str "object"), ("properties", .obj [("name", Json.str "x")]),
       ("required", .arr [.str "name"]), ("additionalProperties", .bool false)] :=
  (format_schema_spec [("name", Json.str "x")]).2.1 (Or.inl rfl)

/-! ## C10 — vision-capability gate -/

/-- C10: with vision enabled, whenever the lowercased model name contains no
entry of the hard-coded vision-capable list, `extractFromImages` fails with
the does-not-support-vision error for every completions oracle — so no model
call is made. -/
theorem vision_capability_gate (model : String) (images : List PdfPageImage)
    (h : Extractor1.isVisionCapableModel model = false) :
    ∀ callModel,
      Extractor1.extractFromImages (some true) model images callModel =
        .error ("Model '" ++ model ++
          "' does not support vision. Please use a vision-capable model like gpt-4o or gpt-4o-mini for scanned PDFs.") := by
  intro callModel
  unfold Extractor1.extractFromImages
  simp [h]

/-- C10 (witness): the non-vision model gpt-3.5-turbo is rejected before any
model call, even with an oracle that would answer. -/
theorem vision_capability_gate_witness :
    Extractor1.isVisionCapableModel "gpt-3.5-turbo" = false ∧
    Extractor1.extractFromImages (some true) "gpt-3.5-turbo" []
        (fun _ => .ok ⟨some "r", none, "m"⟩) =
      .error ("Model '" ++ "gpt-3.5-turbo" ++
        "' does not support vision. Please use a vision-capable model like gpt-4o or gpt-4o-mini for scanned PDFs.") :=
  ⟨by decide,
   vision_capability_gate "gpt-3.5-turbo" [] (by decide)
     (fun _ => .ok ⟨some "r", none, "m"⟩)⟩

end PdfExtractor
